import Mathlib

/-!
Shallow embedding of the Harry Potter RPG core (spell system, combatants,
NPC behaviour, duel orchestration and player persistence), translated from
`spell.py`, `npcs.py`, `player.py` and `main.py`.

Conventions of the embedding:
* Python `int` fields that the code keeps non-negative (health, mana, damage,
  mana cost) are `Nat`; Python `max(0, h - d)` is exactly `Nat` truncated
  subtraction, and `min` caps are `Nat.min`.  House points may go negative and
  are `Int`.
* Mutation is explicit state passing: a method that mutates `self` becomes a
  function returning the updated structure (plus the Python return value).
* `list.remove` raises `ValueError` when the element is absent, so
  `take_damage` returns `Except String`.
* `random.choice` / player input are modelled by an extra `Nat` parameter
  used as an index modulo the list length.
-/

/-- Embedding of `Spell.__init__` from spell.py: name, mana cost, description, damage
(default 0) and optional effect tag. -/
structure Spell where
  name : String
  mana_cost : Nat
  description : String
  damage : Nat
  effect : Option String
deriving DecidableEq

/-- Embedding of `Character.__init__` from npcs.py: health/mana start at their maxima,
no known spells, all status flags off, empty display list. -/
structure Character where
  name : String
  max_health : Nat
  max_mana : Nat
  health : Nat
  mana : Nat
  known_spells : List Spell
  shield_active : Bool
  is_stunned : Bool
  is_disarmed : Bool
  is_knocked_back : Bool
  status_effects : List String
deriving DecidableEq

/-- Constructor call `Character(name, max_health, max_mana)`. -/
def Character.init (name : String) (max_health : Nat) (max_mana : Nat) : Character :=
  { name := name
    max_health := max_health
    max_mana := max_mana
    health := max_health
    mana := max_mana
    known_spells := []
    shield_active := false
    is_stunned := false
    is_disarmed := false
    is_knocked_back := false
    status_effects := [] }

/-- Embedding of `Character.is_alive`: `health > 0`. -/
def Character.is_alive (c : Character) : Bool :=
  decide (c.health > 0)

/-- Embedding of `Character.heal`: health += amount, capped at max_health. -/
def Character.heal (c : Character) (amount : Nat) : Character :=
  { c with health := min c.max_health (c.health + amount) }

/-- Embedding of `Character.restore_mana`: mana += amount, capped at max_mana. -/
def Character.restore_mana (c : Character) (amount : Nat) : Character :=
  { c with mana := min c.max_mana (c.mana + amount) }

/-- Embedding of `Character.apply_effect`: sets the matching flag and appends the display
name (unconditionally — the source does not de-duplicate). -/
def Character.apply_effect (c : Character) (effect : String) : Character :=
  if effect = "shield" then
    { c with shield_active := true, status_effects := c.status_effects ++ ["Shield"] }
  else if effect = "stun" then
    { c with is_stunned := true, status_effects := c.status_effects ++ ["Stunned"] }
  else if effect = "disarm" then
    { c with is_disarmed := true, status_effects := c.status_effects ++ ["Disarmed"] }
  else if effect = "knockback" then
    { c with is_knocked_back := true, status_effects := c.status_effects ++ ["Knocked Back"] }
  else c

/-- Embedding of `Character.clear_effects`: all flags off, display list emptied. -/
def Character.clear_effects (c : Character) : Character :=
  { c with
    shield_active := false
    is_stunned := false
    is_disarmed := false
    is_knocked_back := false
    status_effects := [] }

/-- Embedding of `Character.get_status_effects`. -/
def Character.get_status_effects (c : Character) : List String :=
  c.status_effects

/-- The effective (second, shadowing) `Character.take_damage` from npcs.py:
with an active shield the damage is halved (floor), the flag is cleared and
`status_effects.remove("Shield")` is executed — which raises `ValueError`
when `"Shield"` is not in the list (modelled as `Except.error`).  Health is
floored at 0 (`Nat` subtraction); the actual damage is returned. -/
def Character.take_damage (c : Character) (amount : Nat) :
    Except String (Character × Nat) :=
  if c.shield_active then
    if "Shield" ∈ c.status_effects then
      let actual := amount / 2
      Except.ok
        ({ c with
            shield_active := false
            status_effects := c.status_effects.erase "Shield"
            health := c.health - actual }, actual)
    else
      Except.error "ValueError: list.remove(x): x not in list"
  else
    Except.ok ({ c with health := c.health - amount }, amount)

/-- Embedding of `Spell.cast` from spell.py: insufficient mana fails with a sentinel
message; otherwise the mana cost is deducted and the spell's raw damage and
effect tag are returned.  The `target` parameter exists in the source but is
never used by the body; no status flag is touched by `cast`. -/
def Spell.cast (s : Spell) (caster : Character) (_target : Option Character) :
    Character × Nat × Option String :=
  if caster.mana < s.mana_cost then
    (caster, 0, some "Not enough mana!")
  else
    ({ caster with mana := caster.mana - s.mana_cost }, s.damage, s.effect)

/-- Pre-defined spell `LUMOS`. -/
def LUMOS : Spell :=
  { name := "Lumos", mana_cost := 5
    description := "Creates a bright light from your wand"
    damage := 0, effect := some "illumination" }

/-- Pre-defined spell `EXPELLIARMUS`. -/
def EXPELLIARMUS : Spell :=
  { name := "Expelliarmus", mana_cost := 20
    description := "Disarms your opponent"
    damage := 15, effect := some "disarm" }

/-- Pre-defined spell `STUPEFY`. -/
def STUPEFY : Spell :=
  { name := "Stupefy", mana_cost := 25
    description := "Stuns your opponent"
    damage := 20, effect := some "stun" }

/-- Pre-defined spell `PROTEGO`. -/
def PROTEGO : Spell :=
  { name := "Protego", mana_cost := 15
    description := "Creates a magical shield to protect yourself"
    damage := 0, effect := some "shield" }

/-- Pre-defined spell `FLIPENDO`. -/
def FLIPENDO : Spell :=
  { name := "Flipendo", mana_cost := 18
    description := "Knocks back your opponent"
    damage := 12, effect := some "knockback" }

/-- Pre-defined spell `EPISKEY`. -/
def EPISKEY : Spell :=
  { name := "Episkey", mana_cost := 30
    description := "Heals minor to moderate injuries"
    damage := 0, effect := some "heal" }

/-- Python `str.lower()` restricted to ASCII, as used on spell and house
names: lower-cases character by character.  (`String.toLower` in core is
extensionally the same map but is compiled by well-founded recursion, so this
character-list form is used to keep the embedding kernel-evaluable.) -/
def pyLower (s : String) : String :=
  ⟨s.data.map Char.toLower⟩

/-- Embedding of `ALL_SPELLS`: dictionary keyed by `spell.name.lower()`. -/
def ALL_SPELLS : List (String × Spell) :=
  [LUMOS, EXPELLIARMUS, STUPEFY, PROTEGO, FLIPENDO, EPISKEY].map
    (fun sp => (pyLower sp.name, sp))

/-- Python `key in ALL_SPELLS` / `ALL_SPELLS[key]` (exact key match). -/
def allSpellsGet (key : String) : Option Spell :=
  (ALL_SPELLS.find? (fun kv => kv.1 = key)).map (fun kv => kv.2)

/-- Embedding of `NPC.choose_spell` from npcs.py: filter known spells by
`mana_cost <= mana`; `None` when nothing is castable, otherwise
`random.choice` over the castable list (randomness modelled by the index
`r % length`).  The NPC itself is not modified. -/
def NPC.choose_spell (c : Character) (r : Nat) : Option Spell :=
  let castable := c.known_spells.filter (fun sp => sp.mana_cost ≤ c.mana)
  if castable.isEmpty then none else castable.get? (r % castable.length)

/-- Embedding of `Player` from player.py: a `Character` plus house, knowledge, house
points and inventory. -/
structure Player extends Character where
  house : String
  knowledge : Nat
  house_points : Int
  inventory : List String
deriving DecidableEq

/-- The `house_bonuses` table of `Player.__init__`: (max health, max mana)
looked up by the lowercased house name, default `(100, 100)`. -/
def house_bonuses (house : String) : Nat × Nat :=
  if pyLower house = "gryffindor" then (120, 100)
  else if pyLower house = "slytherin" then (100, 120)
  else if pyLower house = "hufflepuff" then (110, 110)
  else if pyLower house = "ravenclaw" then (90, 130)
  else (100, 100)

/-- Constructor call `Player(name, house)`. -/
def Player.init (name : String) (house : String) : Player :=
  let stats := house_bonuses house
  { toCharacter := Character.init name stats.1 stats.2
    house := house
    knowledge := 0
    house_points := 0
    inventory := ["Wand", "Textbooks"] }

/-- Embedding of `Player.learn_spell`: appended only when not already known; the `Bool`
is the Python return value. -/
def Player.learn_spell (p : Player) (sp : Spell) : Player × Bool :=
  if sp ∈ p.known_spells then (p, false)
  else
    ({ p with toCharacter := { p.toCharacter with known_spells := p.known_spells ++ [sp] } },
      true)

/-- Embedding of `Player.award_house_points`: house_points += points (may go negative). -/
def Player.award_house_points (p : Player) (points : Int) : Player :=
  { p with house_points := p.house_points + points }

/-- The flat record written by `Player.to_dict` / read by `Player.from_dict`. -/
structure PlayerRecord where
  name : String
  house : String
  health : Nat
  max_health : Nat
  mana : Nat
  max_mana : Nat
  knowledge : Nat
  house_points : Int
  inventory : List String
  known_spells : List String
deriving DecidableEq

/-- Embedding of `Player.to_dict`: known spells are saved by their display `name`
(e.g. `"Lumos"`, not lowercased). -/
def Player.to_dict (p : Player) : PlayerRecord :=
  { name := p.name
    house := p.house
    health := p.health
    max_health := p.max_health
    mana := p.mana
    max_mana := p.max_mana
    knowledge := p.knowledge
    house_points := p.house_points
    inventory := p.inventory
    known_spells := p.known_spells.map (fun sp => sp.name) }

/-- Embedding of `Player.from_dict`: builds `Player(name, house)`, overwrites the scalar
fields and inventory, then for each saved spell name appends
`ALL_SPELLS[name]` only when `name` is literally a key of `ALL_SPELLS`
(whose keys are lowercased); other names are skipped. -/
def Player.from_dict (d : PlayerRecord) : Player :=
  let p := Player.init d.name d.house
  { p with
    toCharacter := { p.toCharacter with
      health := d.health
      max_health := d.max_health
      mana := d.mana
      max_mana := d.max_mana
      known_spells := p.known_spells ++ d.known_spells.filterMap allSpellsGet }
    knowledge := d.knowledge
    house_points := d.house_points
    inventory := d.inventory }

/-- Terminal duel outcomes of `HogwartsRPG._run_duel`. -/
inductive DuelOutcome where
  | PLAYER_WON
  | PLAYER_LOST
deriving DecidableEq

/-- State carried across iterations of the `_run_duel` while-loop. -/
structure DuelState where
  player : Player
  opp : Character
deriving DecidableEq

/-- Embedding of `if damage: target.take_damage(damage)` from the duel loop: a zero
damage value skips the call, otherwise the (possibly failing) shield-aware
`take_damage` runs and the updated target is kept. -/
def applyDamage (tgt : Character) (dmg : Nat) : Except String Character :=
  if dmg ≠ 0 then (Character.take_damage tgt dmg).map Prod.fst
  else Except.ok tgt

/-- The opponent half of a `_run_duel` iteration: `choose_spell`; on `None`
the turn is skipped, otherwise the NPC casts at the player and any nonzero
returned damage is applied to the player.  `ni` feeds the modelled
`random.choice`. -/
def npcTurn (ni : Nat) (opp : Character) (player : Player) :
    Except String (Character × Player) :=
  match NPC.choose_spell opp ni with
  | none => Except.ok (opp, player)
  | some sp =>
    let castRes := Spell.cast sp opp (some player.toCharacter)
    match applyDamage player.toCharacter castRes.2.1 with
    | Except.error e => Except.error e
    | Except.ok pc2 => Except.ok (castRes.1, { player with toCharacter := pc2 })

/-- One full iteration of the `_run_duel` while-loop body: the player casts
the chosen known spell at the opponent, nonzero damage is applied, a dead
opponent ends the duel with +20 house points; otherwise the NPC turn runs
and a dead player ends the duel with -10 house points.  `pi` is the
pre-validated player menu choice (spec §6), `ni` the NPC's random draw;
`Sum.inl` carries a terminal outcome, `Sum.inr` the state for the next
iteration. -/
def duelRound (pi ni : Nat) (s : DuelState) :
    Except String (Sum (DuelOutcome × DuelState) DuelState) :=
  match s.player.known_spells.get? (pi % s.player.known_spells.length) with
  | none => Except.ok (Sum.inr s)
  | some spell =>
    let castRes := Spell.cast spell s.player.toCharacter (some s.opp)
    let player1 : Player := { s.player with toCharacter := castRes.1 }
    match applyDamage s.opp castRes.2.1 with
    | Except.error e => Except.error e
    | Except.ok opp1 =>
      if opp1.is_alive = false then
        Except.ok (Sum.inl (DuelOutcome.PLAYER_WON,
          { player := player1.award_house_points 20, opp := opp1 }))
      else
        match npcTurn ni opp1 player1 with
        | Except.error e => Except.error e
        | Except.ok res =>
          if res.2.is_alive = false then
            Except.ok (Sum.inl (DuelOutcome.PLAYER_LOST,
              { player := res.2.award_house_points (-10), opp := res.1 }))
          else
            Except.ok (Sum.inr { player := res.2, opp := res.1 })

/-- The post-duel recovery `_run_duel` always performs on the player:
`heal(30)` then `restore_mana(30)`. -/
def postDuel (p : Player) : Player :=
  { p with toCharacter := (p.toCharacter.heal 30).restore_mana 30 }

/-- Fuel-bounded run of the `_run_duel` while-loop from turn `t`.  `none`
means the fuel ran out with the duel still going; `some` wraps either the
propagated `take_damage` exception or the loop's exit: the terminal outcome
(`none` when a combatant was already dead at loop entry, in which case the
loop body never runs and no points are awarded) together with the player
after post-duel recovery. -/
def duelRun : Nat → (Nat → Nat) → (Nat → Nat) → Nat → DuelState →
    Option (Except String (Option DuelOutcome × Player))
  | 0, _, _, _, _ => none
  | fuel + 1, pc, nc, t, s =>
    if s.player.is_alive = true ∧ s.opp.is_alive = true then
      match duelRound (pc t) (nc t) s with
      | Except.error e => some (Except.error e)
      | Except.ok (Sum.inl (o, s1)) => some (Except.ok (some o, postDuel s1.player))
      | Except.ok (Sum.inr s1) => duelRun fuel pc nc (t + 1) s1
    else
      some (Except.ok (none, postDuel s.player))

/-! ## Concrete fixtures used in counterexamples and witnesses -/

/-- A fresh 100/100 combatant. -/
def freshCombatant : Character :=
  Character.init "Test Wizard" 100 100

/-- A stunned combatant with full mana, knowing Stupefy. -/
def stunnedCaster : Character :=
  { freshCombatant with
    is_stunned := true
    status_effects := ["Stunned"]
    known_spells := [STUPEFY] }

/-- A combatant whose shield flag is set without the matching display entry
(the state C10 is about). -/
def unbackedShield : Character :=
  { freshCombatant with shield_active := true }

/-- A saved player used by the persistence claims: name, Gryffindor stats,
two learned spells and non-default health/mana/knowledge/house points. -/
def savedPlayer : Player :=
  let p := (((Player.init "Test Wizard" "Gryffindor").learn_spell LUMOS).1.learn_spell
    STUPEFY).1
  { p with
    toCharacter := { p.toCharacter with health := 50, mana := 75 }
    knowledge := 100
    house_points := 50 }

/-- Witness fixture: a Gryffindor player who knows Stupefy. -/
def duelWinPlayer : Player :=
  ((Player.init "Harry Potter" "Gryffindor").learn_spell STUPEFY).1

/-- Witness fixture: duel against a nearly-defeated opponent. -/
def duelWinS : DuelState :=
  { player := duelWinPlayer
    opp := { Character.init "Training Dummy" 80 80 with
      health := 20
      known_spells := [LUMOS] } }

/-- Witness fixture: the player after winning that duel (20 mana spent on
the cast, restored to 100 by post-duel recovery; +20 house points). -/
def duelWinFinal : Player :=
  { duelWinPlayer with
    toCharacter := { duelWinPlayer.toCharacter with mana := 100 }
    house_points := 20 }

/-- Non-termination fixture: the player holds only Stupefy (damage 20,
cost 25) and exactly 25 mana — an affordable positive-damage spell. -/
def stallP0 : Player :=
  let p := ((Player.init "Harry Potter" "Gryffindor").learn_spell STUPEFY).1
  { p with toCharacter := { p.toCharacter with mana := 25 } }

/-- Non-termination fixture: the opponent holds only Lumos (damage 0) and
5 mana. -/
def stallO0 : Character :=
  { Character.init "Student Duelist" 80 80 with
    mana := 5
    known_spells := [LUMOS] }

/-- Non-termination fixture: initial duel state. -/
def stallS0 : DuelState :=
  { player := stallP0, opp := stallO0 }

/-- Non-termination fixture: the state after one round — both sides are out
of usable mana, nobody can deal damage any more, both are alive. -/
def stallS1 : DuelState :=
  { player := { stallP0 with toCharacter := { stallP0.toCharacter with mana := 0 } }
    opp := { stallO0 with health := 60, mana := 0 } }

/-- Divergence of a duel run: no amount of fuel makes the loop exit. -/
def duelDiverges (pc nc : Nat → Nat) (s : DuelState) : Prop :=
  ∀ fuel t, duelRun fuel pc nc t s = none

/-! ## Claim theorems -/

/-- C7: with `mana < manaCost` (and the caster not stunned) `cast` returns
damage 0 with the message `"Not enough mana!"` and leaves the caster — mana
included — completely unchanged. -/
theorem cast_insufficient_mana (s : Spell) (c : Character) (tgt : Option Character)
    (_hstun : c.is_stunned = false) (h : c.mana < s.mana_cost) :
    Spell.cast s c tgt = (c, 0, some "Not enough mana!") := by
  simp [Spell.cast, h]

/-- Witness for `cast_insufficient_mana`: Episkey (cost 30) cast with 10
mana fails and deducts nothing. -/
theorem cast_insufficient_mana_witness :
    Spell.cast EPISKEY { freshCombatant with mana := 10 } none =
      ({ freshCombatant with mana := 10 }, 0, some "Not enough mana!") :=
  cast_insufficient_mana EPISKEY { freshCombatant with mana := 10 } none rfl (by decide)

/-- C2 (code evaluated at the failing input): the source `Spell.cast` never
checks `is_stunned`, so a stunned caster with enough mana casts normally —
25 mana is deducted and `(20, "stun")` is returned instead of
`(0, "Cannot cast while stunned!")`. -/
theorem cast_while_stunned_succeeds :
    Spell.cast STUPEFY stunnedCaster none =
      ({ stunnedCaster with mana := 75 }, 20, some "stun") ∧
    stunnedCaster.is_stunned = true ∧
    (Spell.cast STUPEFY stunnedCaster none).2.2 ≠ some "Cannot cast while stunned!" := by
  refine ⟨by decide, rfl, by decide⟩

/-- C1 (refuting evaluation): `Spell.cast` touches no status flag and no
display entry of anyone — in particular a successful `shield` cast leaves
the caster's `shield_active` false, and a successful `stun` cast in a duel
round leaves the target's `is_stunned` false (the duel loop only prints the
returned effect tag; `apply_effect` is never called). -/
theorem cast_applies_no_status_flags :
    (∀ (s : Spell) (c : Character) (tgt : Option Character),
      ((s.cast c tgt).1.shield_active = c.shield_active) ∧
      ((s.cast c tgt).1.is_stunned = c.is_stunned) ∧
      ((s.cast c tgt).1.is_disarmed = c.is_disarmed) ∧
      ((s.cast c tgt).1.is_knocked_back = c.is_knocked_back) ∧
      ((s.cast c tgt).1.status_effects = c.status_effects)) ∧
    (Spell.cast PROTEGO freshCombatant none).1.shield_active = false := by
  constructor
  · intro s c tgt
    unfold Spell.cast
    split <;> simp
  · decide

/-- C10: the shield branch of `take_damage` errors (Python `ValueError` from
`list.remove`) exactly when `shield_active` is set with no `"Shield"` display
entry; whenever `shield_active` implies `"Shield"` is listed, `take_damage`
returns a result. -/
theorem take_damage_total_iff_backed (c : Character) (a : Nat) :
    (c.shield_active = true → "Shield" ∉ c.status_effects →
      c.take_damage a = Except.error "ValueError: list.remove(x): x not in list") ∧
    ((c.shield_active = true → "Shield" ∈ c.status_effects) →
      ∃ c2 r, c.take_damage a = Except.ok (c2, r)) := by
  constructor
  · intro hs hmem
    simp [Character.take_damage, hs, hmem]
  · intro hb
    unfold Character.take_damage
    cases hs : c.shield_active with
    | false => exact ⟨_, _, rfl⟩
    | true =>
      have hmem := hb hs
      simp [hmem]

/-- Witness for `take_damage_total_iff_backed`: the unbacked-shield state
errors at damage 4; the fresh state succeeds. -/
theorem take_damage_total_iff_backed_witness :
    unbackedShield.take_damage 4 =
      Except.error "ValueError: list.remove(x): x not in list" ∧
    ∃ c2 r, freshCombatant.take_damage 4 = Except.ok (c2, r) :=
  ⟨(take_damage_total_iff_backed unbackedShield 4).1 rfl (by decide),
   (take_damage_total_iff_backed freshCombatant 4).2 (by decide)⟩

/-- C5: shield-aware damage.  With an active (well-formed, single-entry)
shield, `take_damage a` deals `a / 2`, floors health at 0, clears the flag
and removes `"Shield"` from the display list, returning `a / 2`; without a
shield it deals and returns `a`; and from a shieldless state, applying the
`shield` effect and then taking `d1` and `d2` mitigates them to `d1 / 2`
and `d2`. -/
theorem take_damage_shield_halving (c : Character) (a d1 d2 : Nat)
    (hwf : c.shield_active = true → c.status_effects.count "Shield" = 1) :
    (c.shield_active = true →
      c.take_damage a =
        Except.ok ({ c with
          shield_active := false
          status_effects := c.status_effects.erase "Shield"
          health := c.health - a / 2 }, a / 2) ∧
      "Shield" ∉ c.status_effects.erase "Shield") ∧
    (c.shield_active = false →
      c.take_damage a = Except.ok ({ c with health := c.health - a }, a)) ∧
    (c.shield_active = false →
      ∃ c1 c2,
        (c.apply_effect "shield").take_damage d1 = Except.ok (c1, d1 / 2) ∧
        c1.take_damage d2 = Except.ok (c2, d2) ∧
        c2.health = c.health - d1 / 2 - d2 ∧
        c2.shield_active = false) := by
  refine ⟨fun hs => ⟨?_, ?_⟩, fun hs => ?_, fun hs => ?_⟩
  · have hmem : "Shield" ∈ c.status_effects :=
      List.count_pos_iff.mp (by rw [hwf hs]; exact Nat.one_pos)
    simp [Character.take_damage, hs, hmem]
  · have : (c.status_effects.erase "Shield").count "Shield" = 0 := by
      rw [List.count_erase_self, hwf hs]
    exact List.count_eq_zero.mp this
  · simp [Character.take_damage, hs]
  · refine ⟨{ c with
        shield_active := false
        status_effects := (c.status_effects ++ ["Shield"]).erase "Shield"
        health := c.health - d1 / 2 },
      { c with
        shield_active := false
        status_effects := (c.status_effects ++ ["Shield"]).erase "Shield"
        health := c.health - d1 / 2 - d2 }, ?_, ?_, rfl, rfl⟩
    · simp [Character.apply_effect, Character.take_damage]
    · simp [Character.take_damage]

/-- Witness for `take_damage_shield_halving`: from the fresh combatant,
shield then damage 20 and 7 mitigate to 10 and 7, ending at health 83. -/
theorem take_damage_shield_halving_witness :
    ∃ c1 c2,
      (freshCombatant.apply_effect "shield").take_damage 20 = Except.ok (c1, 10) ∧
      c1.take_damage 7 = Except.ok (c2, 7) ∧
      c2.health = 100 - 10 - 7 ∧
      c2.shield_active = false :=
  (take_damage_shield_halving freshCombatant 0 20 7 (by decide)).2.2 rfl

/-- C6 (code evaluated at the failing input): `apply_effect` does not
de-duplicate, so applying `shield` twice lists `"Shield"` twice; the
subsequent `take_damage` clears the flag but erases only one entry, leaving
`"Shield"` displayed with `shield_active = false` — the flag/display-list
iff invariant breaks. -/
theorem effect_list_flag_desync :
    ((freshCombatant.apply_effect "shield").apply_effect "shield").status_effects =
      ["Shield", "Shield"] ∧
    ∃ c2 r,
      ((freshCombatant.apply_effect "shield").apply_effect "shield").take_damage 4 =
        Except.ok (c2, r) ∧
      c2.shield_active = false ∧ "Shield" ∈ c2.status_effects := by
  exact ⟨by decide, _, _, rfl, by decide, by decide⟩

/-- C8: `choose_spell` returns `none` iff no known spell is affordable;
any returned spell is a known spell whose mana cost is within current mana;
and every affordable known spell is a possible draw (for some random index).
The function reads the NPC and returns a spell — it changes nothing. -/
theorem choose_spell_correct (c : Character) (r : Nat) :
    (NPC.choose_spell c r = none ↔ ∀ sp ∈ c.known_spells, ¬ sp.mana_cost ≤ c.mana) ∧
    (∀ sp, NPC.choose_spell c r = some sp →
      sp ∈ c.known_spells ∧ sp.mana_cost ≤ c.mana) ∧
    (∀ sp ∈ c.known_spells, sp.mana_cost ≤ c.mana →
      ∃ r2, NPC.choose_spell c r2 = some sp) := by
  unfold NPC.choose_spell
  set castable := c.known_spells.filter (fun sp => sp.mana_cost ≤ c.mana) with hcast
  refine ⟨?_, ?_, ?_⟩
  · by_cases hE : castable.isEmpty
    · simp only [hE, if_true, true_iff]
      intro sp hsp hle
      have : sp ∈ castable := by
        rw [hcast]; exact List.mem_filter.mpr ⟨hsp, by simpa using hle⟩
      rw [List.isEmpty_iff.mp hE] at this
      exact absurd this (List.not_mem_nil sp)
    · simp only [hE, if_false]
      have hlen : 0 < castable.length := by
        cases hc : castable with
        | nil => rw [hc] at hE; simp at hE
        | cons a t => simp [hc]
      have hlt : r % castable.length < castable.length := Nat.mod_lt r hlen
      constructor
      · intro hnone
        rw [List.get?_eq_get hlt] at hnone
        exact absurd hnone (by simp)
      · intro hall
        obtain ⟨a, t, hc⟩ : ∃ a t, castable = a :: t := by
          cases hc : castable with
          | nil => rw [hc] at hE; simp at hE
          | cons a t => exact ⟨a, t, rfl⟩
        have ha : a ∈ castable := by rw [hc]; exact List.mem_cons_self a t
        have := List.mem_filter.mp (hcast ▸ ha)
        exact absurd (by simpa using this.2) (hall a this.1)
  · intro sp h
    by_cases hE : castable.isEmpty
    · simp [hE] at h
    · simp only [hE, if_false] at h
      have hmem : sp ∈ castable := List.get?_mem h
      have := List.mem_filter.mp (hcast ▸ hmem)
      exact ⟨this.1, by simpa using this.2⟩
  · intro sp hsp hle
    have hmem : sp ∈ castable := by
      rw [hcast]; exact List.mem_filter.mpr ⟨hsp, by simpa using hle⟩
    obtain ⟨n, hn⟩ := List.get?_of_mem hmem
    have hlt : n < castable.length := (List.get?_eq_some.mp hn).1
    have hE : castable.isEmpty = false := by
      cases hc : castable with
      | nil => rw [hc] at hmem; exact absurd hmem (List.not_mem_nil sp)
      | cons a t => simp [hc]
    refine ⟨n, ?_⟩
    rw [if_neg (by rw [hE]; simp), Nat.mod_eq_of_lt hlt, hn]

/-- Witness for `choose_spell_correct`: an NPC knowing only Stupefy with
full mana draws Stupefy, which is affordable. -/
theorem choose_spell_correct_witness :
    STUPEFY ∈ ({ freshCombatant with known_spells := [STUPEFY] } : Character).known_spells ∧
    STUPEFY.mana_cost ≤ ({ freshCombatant with known_spells := [STUPEFY] } : Character).mana :=
  (choose_spell_correct { freshCombatant with known_spells := [STUPEFY] } 0).2.1
    STUPEFY (by decide)


/-- C9: every mutating operation clamps: `take_damage` (both shield
branches), `heal`, `restore_mana`, `cast`'s mana deduction and restoring a
persisted record all keep `health ≤ maxHealth` and `mana ≤ maxMana`
(lower bounds are `Nat` flooring by construction); restoring 1000 mana at
90/100 ends at exactly 100. -/
theorem mutations_preserve_bounds (c : Character) (a : Nat) (s : Spell)
    (tgt : Option Character) (p : Player)
    (hh : c.health ≤ c.max_health) (hm : c.mana ≤ c.max_mana)
    (hph : p.health ≤ p.max_health) (hpm : p.mana ≤ p.max_mana) :
    (∀ c2 r, c.take_damage a = Except.ok (c2, r) →
      c2.health ≤ c2.max_health ∧ c2.mana ≤ c2.max_mana) ∧
    ((c.heal a).health ≤ (c.heal a).max_health ∧
      (c.heal a).mana ≤ (c.heal a).max_mana) ∧
    ((c.restore_mana a).health ≤ (c.restore_mana a).max_health ∧
      (c.restore_mana a).mana ≤ (c.restore_mana a).max_mana) ∧
    ((s.cast c tgt).1.health ≤ (s.cast c tgt).1.max_health ∧
      (s.cast c tgt).1.mana ≤ (s.cast c tgt).1.max_mana) ∧
    ((Player.from_dict p.to_dict).health ≤ (Player.from_dict p.to_dict).max_health ∧
      (Player.from_dict p.to_dict).mana ≤ (Player.from_dict p.to_dict).max_mana) ∧
    (Character.restore_mana { freshCombatant with mana := 90 } 1000).mana = 100 := by
  refine ⟨?_, ⟨?_, ?_⟩, ⟨?_, ?_⟩, ?_, ⟨?_, ?_⟩, ?_⟩
  · intro c2 r h
    unfold Character.take_damage at h
    split at h
    · split at h
      · cases h
        exact ⟨le_trans (Nat.sub_le _ _) hh, hm⟩
      · cases h
    · cases h
      exact ⟨le_trans (Nat.sub_le _ _) hh, hm⟩
  · simp [Character.heal]
  · simp [Character.heal, hm]
  · simp [Character.restore_mana, hh]
  · simp [Character.restore_mana]
  · unfold Spell.cast
    split
    · exact ⟨hh, hm⟩
    · exact ⟨hh, le_trans (Nat.sub_le _ _) hm⟩
  · simpa [Player.from_dict, Player.to_dict, Player.init, Character.init] using hph
  · simpa [Player.from_dict, Player.to_dict, Player.init, Character.init] using hpm
  · decide

/-- Witness for `mutations_preserve_bounds`: over-healing the fresh
combatant by 1000 stays within max health. -/
theorem mutations_preserve_bounds_witness :
    (freshCombatant.heal 1000).health ≤ (freshCombatant.heal 1000).max_health :=
  (mutations_preserve_bounds freshCombatant 1000 LUMOS none
    (Player.init "A" "Hufflepuff") (by decide) (by decide) (by decide) (by decide)).2.1.1

/-- C3 (code evaluated at the failing input): `to_dict` saves display names
(`"Lumos"`, `"Stupefy"`) but `from_dict` only accepts literal keys of the
lowercase-keyed `ALL_SPELLS` dictionary, so the save/load round trip silently
drops every known spell (while the scalar fields survive); the lookup is
exact-match, not case-insensitive. -/
theorem save_roundtrip_drops_spells :
    savedPlayer.known_spells = [LUMOS, STUPEFY] ∧
    savedPlayer.to_dict.known_spells = ["Lumos", "Stupefy"] ∧
    (Player.from_dict savedPlayer.to_dict).known_spells = [] ∧
    (Player.from_dict savedPlayer.to_dict).name = savedPlayer.name ∧
    (Player.from_dict savedPlayer.to_dict).house = savedPlayer.house ∧
    (Player.from_dict savedPlayer.to_dict).health = savedPlayer.health ∧
    (Player.from_dict savedPlayer.to_dict).mana = savedPlayer.mana ∧
    (Player.from_dict savedPlayer.to_dict).knowledge = savedPlayer.knowledge ∧
    (Player.from_dict savedPlayer.to_dict).house_points = savedPlayer.house_points ∧
    allSpellsGet "lumos" = some LUMOS ∧
    allSpellsGet "Lumos" = none := by
  decide

/-! ## Duel house-point bookkeeping lemmas -/

/-- The NPC half of a round never touches the player's house points. -/
theorem npcTurn_house_points (ni : Nat) (opp : Character) (player : Player)
    (o2 : Character) (p2 : Player) (h : npcTurn ni opp player = Except.ok (o2, p2)) :
    p2.house_points = player.house_points := by
  unfold npcTurn at h
  split at h
  · cases h; rfl
  · dsimp only at h
    split at h
    · cases h
    · cases h; rfl

/-- A duel round changes the player's house points exactly at its terminal
exits: +20 on a win, -10 on a loss, and not at all when the duel goes on. -/
theorem duelRound_house_points (pi ni : Nat) (s : DuelState) :
    (∀ o s1, duelRound pi ni s = Except.ok (Sum.inl (o, s1)) →
      (o = DuelOutcome.PLAYER_WON ∧
        s1.player.house_points = s.player.house_points + 20) ∨
      (o = DuelOutcome.PLAYER_LOST ∧
        s1.player.house_points = s.player.house_points - 10)) ∧
    (∀ s1, duelRound pi ni s = Except.ok (Sum.inr s1) →
      s1.player.house_points = s.player.house_points) := by
  constructor
  · intro o s1 h
    unfold duelRound at h
    split at h
    · cases h
    · dsimp only at h
      split at h
      · cases h
      · split at h
        · cases h
          exact Or.inl ⟨rfl, rfl⟩
        · split at h
          · cases h
          · rename_i res heq
            split at h
            · cases h
              refine Or.inr ⟨rfl, ?_⟩
              have := npcTurn_house_points _ _ _ res.1 res.2 (by simpa using heq)
              simp [Player.award_house_points, this]
              omega
            · cases h
  · intro s1 h
    unfold duelRound at h
    split at h
    · cases h; rfl
    · dsimp only at h
      split at h
      · cases h
      · split at h
        · cases h
        · split at h
          · cases h
          · rename_i res heq
            split at h
            · cases h
            · cases h
              have := npcTurn_house_points _ _ _ res.1 res.2 (by simpa using heq)
              exact this

/-- The `postDuel` recovery (heal 30, restore 30) does not change house points. -/
theorem postDuel_house_points (p : Player) :
    (postDuel p).house_points = p.house_points := rfl

/-- C4 (amended): whenever a duel run reaches a terminal outcome, that
outcome is exactly one of `PLAYER_WON` — with house points up by exactly 20 —
or `PLAYER_LOST` — with house points down by exactly 10 — and never the
other. -/
theorem duel_outcome_exclusive (fuel t : Nat) (pc nc : Nat → Nat) (s : DuelState)
    (o : DuelOutcome) (p2 : Player)
    (h : duelRun fuel pc nc t s = some (Except.ok (some o, p2))) :
    (o = DuelOutcome.PLAYER_WON ∧ o ≠ DuelOutcome.PLAYER_LOST ∧
      p2.house_points = s.player.house_points + 20) ∨
    (o = DuelOutcome.PLAYER_LOST ∧ o ≠ DuelOutcome.PLAYER_WON ∧
      p2.house_points = s.player.house_points - 10) := by
  induction fuel generalizing t s with
  | zero => exact absurd h (by simp [duelRun])
  | succ n ih =>
    rw [duelRun] at h
    by_cases halive : (s.player.is_alive = true ∧ s.opp.is_alive = true)
    · rw [if_pos halive] at h
      cases hr : duelRound (pc t) (nc t) s with
      | error e => rw [hr] at h; simp at h
      | ok v =>
        cases v with
        | inl pair =>
          obtain ⟨o1, s1⟩ := pair
          rw [hr] at h
          simp only [Option.some.injEq, Except.ok.injEq, Prod.mk.injEq] at h
          obtain ⟨ho, hp⟩ := h
          rcases (duelRound_house_points (pc t) (nc t) s).1 o1 s1 hr with
            ⟨hw, hpts⟩ | ⟨hw, hpts⟩
          · refine Or.inl ⟨by rw [← ho, hw], by rw [← ho, hw]; simp, ?_⟩
            rw [← hp, postDuel_house_points, hpts]
          · refine Or.inr ⟨by rw [← ho, hw], by rw [← ho, hw]; simp, ?_⟩
            rw [← hp, postDuel_house_points, hpts]
        | inr s1 =>
          rw [hr] at h
          have hkeep := (duelRound_house_points (pc t) (nc t) s).2 s1 hr
          rcases ih (t + 1) s1 h with ⟨hw, hne, hpts⟩ | ⟨hw, hne, hpts⟩
          · exact Or.inl ⟨hw, hne, by rw [hpts, hkeep]⟩
          · exact Or.inr ⟨hw, hne, by rw [hpts, hkeep]⟩
    · rw [if_neg halive] at h
      simp at h




/-- Witness for the amended duel-outcome theorem: the one-round winning duel
ends as PLAYER_WON with exactly +20 house points. -/
theorem duel_outcome_exclusive_witness :
    (DuelOutcome.PLAYER_WON = DuelOutcome.PLAYER_WON ∧
      DuelOutcome.PLAYER_WON ≠ DuelOutcome.PLAYER_LOST ∧
      duelWinFinal.house_points = duelWinS.player.house_points + 20) ∨
    (DuelOutcome.PLAYER_WON = DuelOutcome.PLAYER_LOST ∧
      DuelOutcome.PLAYER_WON ≠ DuelOutcome.PLAYER_WON ∧
      duelWinFinal.house_points = duelWinS.player.house_points - 10) :=
  duel_outcome_exclusive 1 0 (fun _ => 0) (fun _ => 0) duelWinS
    DuelOutcome.PLAYER_WON duelWinFinal rfl






/-- From the stalled state every round fails the player's cast (mana 0 < 25),
skips the NPC (nothing castable) and reproduces the same state, so the loop
never exits. -/
theorem duelRun_stall_fix (fuel t : Nat) :
    duelRun fuel (fun _ => 0) (fun _ => 0) t stallS1 = none := by
  induction fuel generalizing t with
  | zero => rfl
  | succ n ih => exact ih (t + 1)

/-- C4 counterexample: in the stalled duel the player starts with an
affordable positive-damage spell, yet the duel never terminates — after the
opening round both sides lack mana for any damaging cast and mana is never
restored mid-duel, so the loop runs forever. -/
theorem duel_nontermination :
    (∃ sp ∈ stallS0.player.known_spells,
      0 < sp.damage ∧ sp.mana_cost ≤ stallS0.player.mana) ∧
    (∃ sp ∈ stallS0.opp.known_spells,
      sp.mana_cost ≤ stallS0.opp.mana) ∧
    duelDiverges (fun _ => 0) (fun _ => 0) stallS0 := by
  refine ⟨⟨STUPEFY, by decide, by decide, by decide⟩,
    ⟨LUMOS, by decide, by decide⟩, ?_⟩
  intro fuel t
  cases fuel with
  | zero => rfl
  | succ n => exact duelRun_stall_fix n (t + 1)
